import Mathlib

/-!
Verification of the `plugins` repository (Nautobot job plugins).

The repository contains a single job, `GenerateDevicesAndRecords`, in
`src/jobs/generate_records.py`, plus a package `__init__.py`.  The job's
`run(data, commit)` method issues a linear sequence of ORM persistence
calls (`get_or_create`, `update_or_create`) against ten record tables,
interleaved with structured log lines, all wrapped in a broad exception
handler.

We embed the job shallowly: the database is a record of lists, ORM
helpers are list upserts keyed on the natural keys the source passes,
and every persistence call consults a fault oracle (`Nat → Option String`)
so that host-raised exceptions and the `except Exception` handler can be
reasoned about.  The call trace and log trace are threaded explicitly.
-/

namespace GenRecords

/-! ### Decimal rendering of integers

Python renders loop counters and totals with `str`/f-strings; we embed
decimal rendering directly (fuel-indexed so that it is structurally
recursive and kernel-computable). -/

def digitChar : Nat → Char
  | 0 => '0'
  | 1 => '1'
  | 2 => '2'
  | 3 => '3'
  | 4 => '4'
  | 5 => '5'
  | 6 => '6'
  | 7 => '7'
  | 8 => '8'
  | _ => '9'

def charVal : Char → Nat
  | '0' => 0
  | '1' => 1
  | '2' => 2
  | '3' => 3
  | '4' => 4
  | '5' => 5
  | '6' => 6
  | '7' => 7
  | '8' => 8
  | '9' => 9
  | _ => 10

def natChars : Nat → Nat → List Char
  | 0, _ => []
  | fuel + 1, n => if n < 10 then [digitChar n] else natChars fuel (n / 10) ++ [digitChar (n % 10)]

/-- Decimal string of a natural number, as Python's `str` of a nonnegative int. -/
def natStr (n : Nat) : String := String.mk (natChars (n + 1) n)

/-- Decimal string of an integer, as Python's `str` of an int. -/
def intStr (i : Int) : String := if i < 0 then "-" ++ natStr (-i).toNat else natStr i.toNat

def listVal (l : List Char) : Nat := l.foldl (fun a c => 10 * a + charVal c) 0

theorem charVal_digitChar {d : Nat} (hd : d < 10) : charVal (digitChar d) = d := by
  interval_cases d <;> rfl

theorem listVal_append_singleton (l : List Char) (c : Char) :
    listVal (l ++ [c]) = 10 * listVal l + charVal c := by
  simp [listVal, List.foldl_append]

theorem natChars_val : ∀ (fuel n : Nat), n < fuel → listVal (natChars fuel n) = n := by
  intro fuel
  induction fuel with
  | zero => intro n hn; omega
  | succ fuel ih =>
    intro n hn
    by_cases h : n < 10
    · simp [natChars, h, listVal, List.foldl, charVal_digitChar h]
    · have hdiv : n / 10 < n := Nat.div_lt_self (by omega) (by omega)
      have hmod : n % 10 < 10 := Nat.mod_lt _ (by omega)
      simp only [natChars, h, if_false, listVal_append_singleton]
      rw [ih (n / 10) (by omega), charVal_digitChar hmod]
      omega

theorem natChars_inj {m n : Nat} (h : natChars (m + 1) m = natChars (n + 1) n) : m = n := by
  have hm := natChars_val (m + 1) m (Nat.lt_succ_self m)
  have hn := natChars_val (n + 1) n (Nat.lt_succ_self n)
  rw [h] at hm
  omega

theorem natStr_inj {m n : Nat} (h : natStr m = natStr n) : m = n := by
  apply natChars_inj
  simpa [natStr] using congrArg String.data h

theorem natChars_digit : ∀ (fuel n : Nat), ∀ c ∈ natChars fuel n, charVal c < 10 := by
  intro fuel
  induction fuel with
  | zero => intro n c hc; simp [natChars] at hc
  | succ fuel ih =>
    intro n c hc
    by_cases h : n < 10
    · simp [natChars, h] at hc
      subst hc
      have := charVal_digitChar h
      omega
    · simp only [natChars, h, if_false, List.mem_append, List.mem_singleton] at hc
      rcases hc with hc | hc
      · exact ih _ _ hc
      · subst hc
        have hmod : n % 10 < 10 := Nat.mod_lt _ (by omega)
        have := charVal_digitChar hmod
        omega

theorem natStr_no_dot {n : Nat} : ∀ c ∈ (natStr n).data, c ≠ '.' := by
  intro c hc heq
  have := natChars_digit (n + 1) n c hc
  rw [heq] at this
  simp [charVal] at this

theorem natStr_no_slash {n : Nat} : ∀ c ∈ (natStr n).data, c ≠ '/' := by
  intro c hc heq
  have := natChars_digit (n + 1) n c hc
  rw [heq] at this
  simp [charVal] at this

/-- Unique splitting of a character list at a separator that occurs in
neither prefix. -/
theorem append_sep_inj (sep : Char) :
    ∀ (a b c d : List Char), (∀ x ∈ a, x ≠ sep) → (∀ x ∈ b, x ≠ sep) →
      a ++ sep :: c = b ++ sep :: d → a = b ∧ c = d := by
  intro a
  induction a with
  | nil =>
    intro b c d _ hb h
    cases b with
    | nil => simpa using h
    | cons y ys =>
      simp only [List.nil_append, List.cons_append, List.cons.injEq] at h
      exact absurd h.1.symm (hb y (by simp))
  | cons x xs ih =>
    intro b c d ha hb h
    cases b with
    | nil =>
      simp only [List.cons_append, List.nil_append, List.cons.injEq] at h
      exact absurd h.1 (ha x (by simp))
    | cons y ys =>
      simp only [List.cons_append, List.cons.injEq] at h
      obtain ⟨hxy, ht⟩ := h
      subst hxy
      obtain ⟨h1, h2⟩ := ih ys c d (fun z hz => ha z (by simp [hz])) (fun z hz => hb z (by simp [hz])) ht
      exact ⟨by rw [h1], h2⟩

/-! ### The synthetic IP address string (generate_records.py line 115) -/

/-- `ip_str = f"10.0.{(i // 256) % 256}.{i % 256}/24"` — a pure function of
the loop counter `i` alone. -/
def ipStr (i : Nat) : String :=
  "10.0." ++ natStr (i / 256 % 256) ++ "." ++ natStr (i % 256) ++ "/24"

theorem string_data_append (s t : String) : (s ++ t).data = s.data ++ t.data := rfl

theorem ipStr_data (i : Nat) :
    (ipStr i).data =
      '1' :: '0' :: '.' :: '0' :: '.' ::
        ((natStr (i / 256 % 256)).data ++ '.' :: ((natStr (i % 256)).data ++ ['/', '2', '4'])) := by
  simp [ipStr, string_data_append]

theorem ipStr_inj {i j : Nat} (hi : i < 65536) (hj : j < 65536) (h : ipStr i = ipStr j) : i = j := by
  have hd := congrArg String.data h
  rw [ipStr_data, ipStr_data] at hd
  simp only [List.cons.injEq, true_and] at hd
  obtain ⟨h1, h2⟩ := append_sep_inj '.' _ _ _ _ natStr_no_dot natStr_no_dot hd
  obtain ⟨h3, _⟩ := append_sep_inj '/' _ _ _ _ natStr_no_slash natStr_no_slash h2
  have e1 : i / 256 % 256 = j / 256 % 256 := by
    apply natChars_inj
    exact h1
  have e2 : i % 256 = j % 256 := by
    apply natChars_inj
    exact h3
  omega

theorem ipStr_ne {i j : Nat} (hi : i < 65536) (hj : j < 65536) (hne : i ≠ j) :
    ipStr i ≠ ipStr j := fun h => hne (ipStr_inj hi hj h)

/-! ### Data model

The host platform's tables, restricted to the fields this job reads or
writes.  Object references (foreign keys) are represented by the natural
keys the job itself uses to fetch or create the referenced objects. -/

structure StatusRec where
  name : String
  description : String
deriving DecidableEq, Repr

structure ManufacturerRec where
  name : String
deriving DecidableEq, Repr

structure DeviceTypeRec where
  model : String
  manufacturer : String
  slug : String
deriving DecidableEq, Repr

structure PlatformRec where
  name : String
deriving DecidableEq, Repr

structure LocationRec where
  name : String
deriving DecidableEq, Repr

structure ZoneRec where
  name : String
deriving DecidableEq, Repr

structure DeviceRec where
  name : String
  device_type : String × String
  platform : String
  location : String
  status : String
deriving DecidableEq, Repr

structure InterfaceRec where
  device : String
  name : String
  type : String
  status : String
deriving DecidableEq, Repr

structure IPAddressRec where
  address : String
  assigned_object : String × String
  status : String
deriving DecidableEq, Repr

structure ARecordRec where
  name : String
  zone : String
  address : String
deriving DecidableEq, Repr

structure Db where
  statuses : List StatusRec
  manufacturers : List ManufacturerRec
  deviceTypes : List DeviceTypeRec
  platforms : List PlatformRec
  locations : List LocationRec
  zones : List ZoneRec
  devices : List DeviceRec
  interfaces : List InterfaceRec
  ipaddresses : List IPAddressRec
  arecords : List ARecordRec
deriving DecidableEq, Repr

def emptyDb : Db := ⟨[], [], [], [], [], [], [], [], [], []⟩

/-! ### ORM helpers

Django/Nautobot `get_or_create` fetches the first row matching the
keyword filter or inserts a new row built from filter plus `defaults`;
`update_or_create` additionally overwrites the `defaults` fields on the
fetched row.  Both return the object and a `created` flag. -/

def updateFirst (p : α → Bool) (f : α → α) : List α → List α
  | [] => []
  | x :: xs => if p x then f x :: xs else x :: updateFirst p f xs

/-- `Model.objects.get_or_create(**key, defaults=...)` over a list table. -/
def getOrCreate (p : α → Bool) (mk : α) (l : List α) : List α × α × Bool :=
  match l.find? p with
  | some r => (l, r, false)
  | none => (l ++ [mk], mk, true)

/-- `Model.objects.update_or_create(**key, defaults=...)` over a list table. -/
def upsert (p : α → Bool) (f : α → α) (mk : α) (l : List α) : List α × α × Bool :=
  match l.find? p with
  | some r => (updateFirst p f l, f r, false)
  | none => (l ++ [mk], mk, true)

/-! Generic lemmas about the ORM helpers.  Throughout, the hypothesis
`hf : ∀ x, p x = true → f x = mk` records that this job's
`update_or_create` calls pass every non-key field in `defaults`, so an
update overwrites the matched row with exactly the row it would create. -/

theorem updateFirst_of_find?_eq {p : α → Bool} {f : α → α} :
    ∀ {l : List α} {r : α}, l.find? p = some r → f r = r → updateFirst p f l = l := by
  intro l
  induction l with
  | nil => intro r h; simp at h
  | cons x xs ih =>
    intro r h hfix
    by_cases hx : p x
    · rw [List.find?_cons_of_pos _ hx] at h
      cases h
      simp [updateFirst, hx, hfix]
    · rw [List.find?_cons_of_neg _ hx] at h
      simp [updateFirst, hx, ih h hfix]

theorem find?_updateFirst {p : α → Bool} {f : α → α} :
    ∀ {l : List α} {r : α}, l.find? p = some r → p (f r) = true →
      (updateFirst p f l).find? p = some (f r) := by
  intro l
  induction l with
  | nil => intro r h; simp at h
  | cons x xs ih =>
    intro r h hp
    by_cases hx : p x
    · rw [List.find?_cons_of_pos _ hx] at h
      cases h
      simp [updateFirst, hx, List.find?_cons_of_pos _ hp]
    · rw [List.find?_cons_of_neg _ hx] at h
      simp [updateFirst, hx, List.find?_cons_of_neg _ hx, ih h hp]

theorem find?_updateFirst_other {p q : α → Bool} {f : α → α}
    (hpq : ∀ x, p x = true → q x = false) (hpf : ∀ x, p x = true → q (f x) = false) :
    ∀ (l : List α), (updateFirst p f l).find? q = l.find? q := by
  intro l
  induction l with
  | nil => simp [updateFirst]
  | cons x xs ih =>
    by_cases hx : p x
    · have h1 : q x = false := hpq x hx
      have h2 : q (f x) = false := hpf x hx
      simp [updateFirst, hx, List.find?_cons_of_neg, h1, h2]
    · by_cases hq : q x
      · simp [updateFirst, hx, List.find?_cons_of_pos _ hq]
      · simp [updateFirst, hx, List.find?_cons_of_neg, hq, ih]

theorem find?_append_of_eq_none {p : α → Bool} {l₁ l₂ : List α} (h : l₁.find? p = none) :
    (l₁ ++ l₂).find? p = l₂.find? p := by
  induction l₁ with
  | nil => simp
  | cons x xs ih =>
    by_cases hx : p x
    · rw [List.find?_cons_of_pos _ hx] at h; cases h
    · rw [List.find?_cons_of_neg _ hx] at h
      simp [List.find?_cons_of_neg, hx, ih h]

theorem find?_append_of_eq_some {p : α → Bool} {l₁ l₂ : List α} {r : α}
    (h : l₁.find? p = some r) : (l₁ ++ l₂).find? p = some r := by
  induction l₁ with
  | nil => simp at h
  | cons x xs ih =>
    by_cases hx : p x
    · rw [List.find?_cons_of_pos _ hx] at h
      simp [List.find?_cons_of_pos, hx, h]
    · rw [List.find?_cons_of_neg _ hx] at h
      simp [List.find?_cons_of_neg, hx, ih h]

/-- The object an `update_or_create` returns is exactly the row built from
key and defaults. -/
theorem upsert_snd {p : α → Bool} {f : α → α} {mk : α} (hf : ∀ x, p x = true → f x = mk)
    (l : List α) : (upsert p f mk l).2.1 = mk := by
  unfold upsert
  cases h : l.find? p with
  | none => rfl
  | some r => exact hf r (List.find?_some h)

/-- After an `update_or_create`, the first row matching the key is exactly
the row built from key and defaults. -/
theorem upsert_find? {p : α → Bool} {f : α → α} {mk : α}
    (hf : ∀ x, p x = true → f x = mk) (hp : p mk = true) (l : List α) :
    ((upsert p f mk l).1).find? p = some mk := by
  unfold upsert
  cases h : l.find? p with
  | none =>
    simp only
    rw [find?_append_of_eq_none h]
    simp [List.find?_cons_of_pos _ hp]
  | some r =>
    simp only
    rw [find?_updateFirst h (by rw [hf r (List.find?_some h)]; exact hp), hf r (List.find?_some h)]

/-- An `update_or_create` whose target row is already present, with
exactly the values it would write, leaves the table unchanged. -/
theorem upsert_fix {p : α → Bool} {f : α → α} {mk : α}
    (hf : ∀ x, p x = true → f x = mk) (hp : p mk = true) {l : List α}
    (h : l.find? p = some mk) : (upsert p f mk l).1 = l := by
  unfold upsert
  rw [h]
  exact updateFirst_of_find?_eq h (hf mk hp)

/-- An `update_or_create` does not disturb the first row matching a
disjoint key. -/
theorem upsert_find?_other {p q : α → Bool} {f : α → α} {mk : α}
    (hf : ∀ x, p x = true → f x = mk)
    (hpq : ∀ x, p x = true → q x = false) (hq : q mk = false) (l : List α) :
    ((upsert p f mk l).1).find? q = l.find? q := by
  unfold upsert
  cases h : l.find? p with
  | none =>
    simp only
    cases hq2 : l.find? q with
    | none => rw [find?_append_of_eq_none hq2]; simp [List.find?_cons_of_neg, hq]
    | some r => exact find?_append_of_eq_some hq2
  | some r =>
    simp only
    exact find?_updateFirst_other hpq (fun x hx => by rw [hf x hx]; exact hq) l

/-- A `get_or_create` returns a row matching its key. -/
theorem getOrCreate_snd_prop {p : α → Bool} {mk : α} (hp : p mk = true) (l : List α) :
    p (getOrCreate p mk l).2.1 = true := by
  unfold getOrCreate
  cases h : l.find? p with
  | none => exact hp
  | some r => exact List.find?_some h

/-- After a `get_or_create`, the first row matching the key is the row the
call returned. -/
theorem getOrCreate_find? {p : α → Bool} {mk : α} (hp : p mk = true) (l : List α) :
    ((getOrCreate p mk l).1).find? p = some (getOrCreate p mk l).2.1 := by
  unfold getOrCreate
  cases h : l.find? p with
  | none =>
    simp only
    rw [find?_append_of_eq_none h]
    simp [List.find?_cons_of_pos _ hp]
  | some r => simpa using h

/-- A `get_or_create` that finds a row leaves the table unchanged and
returns that row. -/
theorem getOrCreate_of_find? {p : α → Bool} {mk : α} {l : List α} {r : α}
    (h : l.find? p = some r) : getOrCreate p mk l = (l, r, false) := by
  unfold getOrCreate
  rw [h]

/-! ### Job inputs (generate_records.py lines 27-56) -/

/-- The `data` dict passed to `run`: one entry per declared input variable. -/
structure JobData where
  location_name : String
  base_device_name : String
  total_devices : Int
  zone_name : String
  dry_run : Bool
deriving DecidableEq, Repr

/-- The declared input fields of `GenerateDevicesAndRecords` — field name
and variable kind, in declaration order. -/
def jobInputFields : List (String × String) :=
  [("location_name", "StringVar"), ("base_device_name", "StringVar"),
   ("total_devices", "IntegerVar"), ("zone_name", "StringVar"), ("dry_run", "BooleanVar")]

/-- The declared constraint on `total_devices`: `min_value=1, max_value=5000`. -/
def validInput (d : JobData) : Prop := 1 ≤ d.total_devices ∧ d.total_devices ≤ 5000

/-- `device_name = f"{data['base_device_name']}-{i}"` (line 112). -/
def devName (data : JobData) (i : Nat) : String :=
  data.base_device_name ++ "-" ++ natStr i

theorem devName_inj {d : JobData} {i j : Nat} (h : devName d i = devName d j) : i = j := by
  have hd := congrArg String.data h
  have hdash : ("-" : String).data = ['-'] := rfl
  simp only [devName, string_data_append, hdash, List.append_assoc] at hd
  have hd2 := List.append_cancel_left hd
  simp only [List.singleton_append, List.cons.injEq, true_and] at hd2
  exact natChars_inj hd2

theorem devName_ne {d : JobData} {i j : Nat} (hne : i ≠ j) : devName d i ≠ devName d j :=
  fun h => hne (devName_inj h)

/-! ### The job's table operations

One definition per persistence call site in `run`, with the literal keys
and defaults the source passes. -/

/-- `Status.objects.get_or_create(name="Active", defaults={"description": "Active status"})` (lines 79-81). -/
def statusGOC (db : Db) : Db × StatusRec × Bool :=
  let u := getOrCreate (fun r => r.name == "Active")
    { name := "Active", description := "Active status" } db.statuses
  ({ db with statuses := u.1 }, u.2.1, u.2.2)

/-- `Manufacturer.objects.get_or_create(name="AutoGen Inc.")` (line 83). -/
def manufacturerGOC (db : Db) : Db × ManufacturerRec × Bool :=
  let u := getOrCreate (fun r => r.name == "AutoGen Inc.") { name := "AutoGen Inc." } db.manufacturers
  ({ db with manufacturers := u.1 }, u.2.1, u.2.2)

/-- `DeviceType.objects.get_or_create(model="AGen-Switch", manufacturer=manufacturer, defaults={"slug": "agen-switch"})` (lines 88-91). -/
def deviceTypeGOC (mfr : String) (db : Db) : Db × DeviceTypeRec × Bool :=
  let u := getOrCreate (fun r => r.model == "AGen-Switch" && r.manufacturer == mfr)
    { model := "AGen-Switch", manufacturer := mfr, slug := "agen-switch" } db.deviceTypes
  ({ db with deviceTypes := u.1 }, u.2.1, u.2.2)

/-- `Platform.objects.get_or_create(name="AutoOS")` (line 96). -/
def platformGOC (db : Db) : Db × PlatformRec × Bool :=
  let u := getOrCreate (fun r => r.name == "AutoOS") { name := "AutoOS" } db.platforms
  ({ db with platforms := u.1 }, u.2.1, u.2.2)

/-- `Location.objects.get_or_create(name=data["location_name"])` (line 101). -/
def locationGOC (nm : String) (db : Db) : Db × LocationRec × Bool :=
  let u := getOrCreate (fun r => r.name == nm) { name := nm } db.locations
  ({ db with locations := u.1 }, u.2.1, u.2.2)

/-- `Zone.objects.get_or_create(name=data["zone_name"])` (line 106). -/
def zoneGOC (nm : String) (db : Db) : Db × ZoneRec × Bool :=
  let u := getOrCreate (fun r => r.name == nm) { name := nm } db.zones
  ({ db with zones := u.1 }, u.2.1, u.2.2)

/-- `Device.objects.update_or_create(name=device_name, defaults={...})` (lines 121-129). -/
def deviceUOC (nm : String) (dt : String × String) (pf lo st : String) (db : Db) :
    Db × DeviceRec × Bool :=
  let u := upsert (fun r => r.name == nm)
    (fun r => { r with device_type := dt, platform := pf, location := lo, status := st })
    { name := nm, device_type := dt, platform := pf, location := lo, status := st } db.devices
  ({ db with devices := u.1 }, u.2.1, u.2.2)

/-- `Interface.objects.update_or_create(device=device, name="eth0", defaults={...})` (lines 137-144). -/
def interfaceUOC (dev iname ity ist : String) (db : Db) : Db × InterfaceRec × Bool :=
  let u := upsert (fun r => r.device == dev && r.name == iname)
    (fun r => { r with type := ity, status := ist })
    { device := dev, name := iname, type := ity, status := ist } db.interfaces
  ({ db with interfaces := u.1 }, u.2.1, u.2.2)

/-- `IPAddress.objects.update_or_create(address=ip_str, defaults={...})` (lines 151-157). -/
def ipUOC (addr : String) (ao : String × String) (st : String) (db : Db) :
    Db × IPAddressRec × Bool :=
  let u := upsert (fun r => r.address == addr)
    (fun r => { r with assigned_object := ao, status := st })
    { address := addr, assigned_object := ao, status := st } db.ipaddresses
  ({ db with ipaddresses := u.1 }, u.2.1, u.2.2)

/-- `ARecord.objects.update_or_create(name=device_name, zone=zone, defaults={"address": ip_address_obj})` (lines 166-172). -/
def arUOC (aname zn addr : String) (db : Db) : Db × ARecordRec × Bool :=
  let u := upsert (fun r => r.name == aname && r.zone == zn)
    (fun r => { r with address := addr })
    { name := aname, zone := zn, address := addr } db.arecords
  ({ db with arecords := u.1 }, u.2.1, u.2.2)

/-- The common objects prepared before the loop (lines 79-108), by which the
loop body refers to them. -/
structure Ctx where
  status_active : StatusRec
  device_type : DeviceTypeRec
  platform : PlatformRec
  location : LocationRec
  zone : ZoneRec
deriving DecidableEq, Repr

/-! ### Pure (fault-free) characterization of the database effect -/

/-- Database effect and context of the pre-loop `get_or_create` sequence
(lines 79-108) when no call raises. -/
def pureSetup (data : JobData) (db : Db) : Db × Ctx :=
  let s := statusGOC db
  let m := manufacturerGOC s.1
  let dt := deviceTypeGOC m.2.1.name m.1
  let pf := platformGOC dt.1
  let lo := locationGOC data.location_name pf.1
  let z := zoneGOC data.zone_name lo.1
  (z.1, { status_active := s.2.1, device_type := dt.2.1, platform := pf.2.1,
          location := lo.2.1, zone := z.2.1 })

/-- Database effect of one loop iteration (lines 111-178) when no call
raises: four upserts, each object feeding the next call as in the source. -/
def iterDb (data : JobData) (ctx : Ctx) (i : Nat) (db : Db) : Db :=
  let a := deviceUOC (devName data i) (ctx.device_type.model, ctx.device_type.manufacturer)
    ctx.platform.name ctx.location.name ctx.status_active.name db
  let b := interfaceUOC a.2.1.name "eth0" "1000base-t" ctx.status_active.name a.1
  let c := ipUOC (ipStr i) (b.2.1.device, b.2.1.name) ctx.status_active.name b.1
  let d := arUOC (devName data i) ctx.zone.name c.2.1.address c.1
  d.1

def foldIter (data : JobData) (ctx : Ctx) (is : List Nat) (db : Db) : Db :=
  is.foldl (fun db i => iterDb data ctx i db) db

/-- Final database state of a fault-free `run`, for any `commit` value. -/
def pureRunDb (data : JobData) (db0 : Db) : Db :=
  if data.total_devices ≤ 0 then db0
  else
    let u := pureSetup data db0
    foldIter data u.2 (List.range data.total_devices.toNat) u.1

/-! Returned-object lemmas: each call returns the row built from its key
and defaults (for `update_or_create`), or a row matching its key (for
`get_or_create`). -/

theorem deviceUOC_snd (nm : String) (dt : String × String) (pf lo st : String) (db : Db) :
    (deviceUOC nm dt pf lo st db).2.1 =
      { name := nm, device_type := dt, platform := pf, location := lo, status := st } := by
  simp only [deviceUOC]
  apply upsert_snd
  intro x hx
  cases x
  simp_all

theorem interfaceUOC_snd (dev iname ity ist : String) (db : Db) :
    (interfaceUOC dev iname ity ist db).2.1 =
      { device := dev, name := iname, type := ity, status := ist } := by
  simp only [interfaceUOC]
  apply upsert_snd
  intro x hx
  cases x
  simp_all

theorem ipUOC_snd (addr : String) (ao : String × String) (st : String) (db : Db) :
    (ipUOC addr ao st db).2.1 = { address := addr, assigned_object := ao, status := st } := by
  simp only [ipUOC]
  apply upsert_snd
  intro x hx
  cases x
  simp_all

theorem arUOC_snd (aname zn addr : String) (db : Db) :
    (arUOC aname zn addr db).2.1 = { name := aname, zone := zn, address := addr } := by
  simp only [arUOC]
  apply upsert_snd
  intro x hx
  cases x
  simp_all

theorem statusGOC_name (db : Db) : (statusGOC db).2.1.name = "Active" := by
  simp only [statusGOC]
  have := @getOrCreate_snd_prop StatusRec (fun r => r.name == "Active")
    { name := "Active", description := "Active status" } (by simp) db.statuses
  simpa using this

theorem manufacturerGOC_name (db : Db) : (manufacturerGOC db).2.1.name = "AutoGen Inc." := by
  simp only [manufacturerGOC]
  have := @getOrCreate_snd_prop ManufacturerRec (fun r => r.name == "AutoGen Inc.")
    { name := "AutoGen Inc." } (by simp) db.manufacturers
  simpa using this

theorem zoneGOC_name (nm : String) (db : Db) : (zoneGOC nm db).2.1.name = nm := by
  simp only [zoneGOC]
  have := @getOrCreate_snd_prop ZoneRec (fun r => r.name == nm)
    { name := nm } (by simp) db.zones
  simpa using this

/-! Frame lemmas: the loop never writes the six pre-loop tables, and the
pre-loop `get_or_create` calls never write the four loop tables. -/

theorem iterDb_statuses (data : JobData) (ctx : Ctx) (i : Nat) (db : Db) :
    (iterDb data ctx i db).statuses = db.statuses := rfl

theorem iterDb_manufacturers (data : JobData) (ctx : Ctx) (i : Nat) (db : Db) :
    (iterDb data ctx i db).manufacturers = db.manufacturers := rfl

theorem iterDb_deviceTypes (data : JobData) (ctx : Ctx) (i : Nat) (db : Db) :
    (iterDb data ctx i db).deviceTypes = db.deviceTypes := rfl

theorem iterDb_platforms (data : JobData) (ctx : Ctx) (i : Nat) (db : Db) :
    (iterDb data ctx i db).platforms = db.platforms := rfl

theorem iterDb_locations (data : JobData) (ctx : Ctx) (i : Nat) (db : Db) :
    (iterDb data ctx i db).locations = db.locations := rfl

theorem iterDb_zones (data : JobData) (ctx : Ctx) (i : Nat) (db : Db) :
    (iterDb data ctx i db).zones = db.zones := rfl

theorem pureSetup_devices (data : JobData) (db : Db) :
    ((pureSetup data db).1).devices = db.devices := rfl

theorem pureSetup_interfaces (data : JobData) (db : Db) :
    ((pureSetup data db).1).interfaces = db.interfaces := rfl

theorem pureSetup_ipaddresses (data : JobData) (db : Db) :
    ((pureSetup data db).1).ipaddresses = db.ipaddresses := rfl

theorem pureSetup_arecords (data : JobData) (db : Db) :
    ((pureSetup data db).1).arecords = db.arecords := rfl

/-! ### The effectful embedding of `run`

Log lines are the `self.log_*` calls; every persistence call is recorded
in a call trace and consults a fault oracle mapping the index of the call
to `none` (the host call succeeds) or `some msg` (the host raises an
exception with message `msg`, caught by the `except Exception` block).
The body functions thread the database and call trace and emit their log
lines as an output trace; on an exception they return the state reached
and the lines logged so far. -/

inductive LogLine
  | info (msg : String)
  | success (msg : String)
  | failure (msg : String)
  | warning (msg : String)
deriving DecidableEq, Repr

inductive Call
  | getOrCreate (table : String) (key : List String)
  | updateOrCreate (table : String) (key : List String)
deriving DecidableEq, Repr

structure St where
  db : Db
  calls : List Call
deriving DecidableEq, Repr

/-- One host persistence call: it is recorded in the trace, and either the
oracle makes it raise (no write happens) or its database effect `f` is
applied. -/
def ormCall (oracle : Nat → Option String) (c : Call) (f : Db → Db × β) (s : St) :
    Except (St × String) (St × β) :=
  match oracle s.calls.length with
  | some msg => .error ({ s with calls := s.calls ++ [c] }, msg)
  | none => .ok ({ s with db := (f s.db).1, calls := s.calls ++ [c] }, (f s.db).2)

/-- The oracle under which no host call raises. -/
def noFail : Nat → Option String := fun _ => none

/-- `if created: self.log_info(...)`. -/
def createdLog (c : Bool) (e : LogLine) : List LogLine := if c then [e] else []

/-- Lines 79-108: the pre-loop `get_or_create` sequence with its
conditional "Created new ..." log lines. -/
def setup (data : JobData) (oracle : Nat → Option String) (s : St) :
    Except (St × List LogLine × String) (St × List LogLine × Ctx) :=
  match ormCall oracle (.getOrCreate "Status" ["Active"]) statusGOC s with
  | .error (t, m) => .error (t, [], m)
  | .ok (s, sa) =>
  match ormCall oracle (.getOrCreate "Manufacturer" ["AutoGen Inc."]) manufacturerGOC s with
  | .error (t, m) => .error (t, [], m)
  | .ok (s, mf) =>
  let lg1 := createdLog mf.2 (.info ("Created new Manufacturer: " ++ mf.1.name))
  match ormCall oracle (.getOrCreate "DeviceType" ["AGen-Switch", mf.1.name]) (deviceTypeGOC mf.1.name) s with
  | .error (t, m) => .error (t, lg1, m)
  | .ok (s, dt) =>
  let lg2 := lg1 ++ createdLog dt.2 (.info ("Created new DeviceType: " ++ dt.1.model))
  match ormCall oracle (.getOrCreate "Platform" ["AutoOS"]) platformGOC s with
  | .error (t, m) => .error (t, lg2, m)
  | .ok (s, pf) =>
  let lg3 := lg2 ++ createdLog pf.2 (.info ("Created new Platform: " ++ pf.1.name))
  match ormCall oracle (.getOrCreate "Location" [data.location_name]) (locationGOC data.location_name) s with
  | .error (t, m) => .error (t, lg3, m)
  | .ok (s, lo) =>
  let lg4 := lg3 ++ createdLog lo.2 (.info ("Created new Location: " ++ lo.1.name))
  match ormCall oracle (.getOrCreate "Zone" [data.zone_name]) (zoneGOC data.zone_name) s with
  | .error (t, m) => .error (t, lg4, m)
  | .ok (s, z) =>
  let lg5 := lg4 ++ createdLog z.2 (.info ("Created new DNS Zone: " ++ z.1.name))
  .ok (s, lg5, { status_active := sa.1, device_type := dt.1, platform := pf.1,
                 location := lo.1, zone := z.1 })

/-- Lines 111-178: one loop iteration.  Returns whether the Device was
created (which is what `created_count` counts). -/
def runIter (data : JobData) (ctx : Ctx) (oracle : Nat → Option String) (i : Nat) (s : St) :
    Except (St × List LogLine × String) (St × List LogLine × Bool) :=
  let device_name := devName data i
  let ip_str := ipStr i
  let lg0 : List LogLine := [.info ("Processing device: " ++ device_name ++ " with IP: " ++ ip_str)]
  match ormCall oracle (.updateOrCreate "Device" [device_name])
      (deviceUOC device_name (ctx.device_type.model, ctx.device_type.manufacturer)
        ctx.platform.name ctx.location.name ctx.status_active.name) s with
  | .error (t, m) => .error (t, lg0, m)
  | .ok (s, dev) =>
  let lg1 := lg0 ++ [if dev.2 then .success ("Device '" ++ device_name ++ "' created.")
    else .info ("Device '" ++ device_name ++ "' already exists. Updating...")]
  match ormCall oracle (.updateOrCreate "Interface" [dev.1.name, "eth0"])
      (interfaceUOC dev.1.name "eth0" "1000base-t" ctx.status_active.name) s with
  | .error (t, m) => .error (t, lg1, m)
  | .ok (s, itf) =>
  let lg2 := lg1 ++ [if itf.2 then .success ("Interface 'eth0' for '" ++ device_name ++ "' created.")
    else .info ("Interface 'eth0' for '" ++ device_name ++ "' already exists. Updating...")]
  match ormCall oracle (.updateOrCreate "IPAddress" [ip_str])
      (ipUOC ip_str (itf.1.device, itf.1.name) ctx.status_active.name) s with
  | .error (t, m) => .error (t, lg2, m)
  | .ok (s, ipo) =>
  let lg3 := lg2 ++ [if ipo.2 then
      .success ("IP Address '" ++ ip_str ++ "' for '" ++ device_name ++ "' created and assigned to interface.")
    else .info ("IP Address '" ++ ip_str ++ "' for '" ++ device_name ++ "' already exists. Updating...")]
  match ormCall oracle (.updateOrCreate "ARecord" [device_name, ctx.zone.name])
      (arUOC device_name ctx.zone.name ipo.1.address) s with
  | .error (t, m) => .error (t, lg3, m)
  | .ok (s, ar) =>
  let lg4 := lg3 ++ [if ar.2 then
      .success ("A Record for '" ++ device_name ++ "." ++ ctx.zone.name ++ "' pointing to '" ++ ipo.1.address ++ "' created.")
    else .info ("A Record for '" ++ device_name ++ "." ++ ctx.zone.name ++ "' already exists. Updating...")]
  let lg5 := lg4 ++ [.info ("Processed " ++ device_name ++ " | IP: " ++ ip_str)]
  .ok (s, lg5, dev.2)

/-- `for i in range(data["total_devices"])`, threading `created_count`. -/
def runLoop (data : JobData) (ctx : Ctx) (oracle : Nat → Option String) :
    List Nat → St → Nat → Except (St × List LogLine × String) (St × List LogLine × Nat)
  | [], s, cnt => .ok (s, [], cnt)
  | i :: is, s, cnt =>
    match runIter data ctx oracle i s with
    | .error (t, lg, m) => .error (t, lg, m)
    | .ok (t, lg, created) =>
      match runLoop data ctx oracle is t (if created then cnt + 1 else cnt) with
      | .error (t2, lg2, m) => .error (t2, lg ++ lg2, m)
      | .ok (t2, lg2, k) => .ok (t2, lg ++ lg2, k)

/-- The whole `try` body (lines 77-178): setup then loop; also yields
`created_count` and `zone.name` for the closing log line.  Note that the
body depends on `data` and the oracle only — `commit` is not read
anywhere between line 76 and line 179. -/
def runBody (data : JobData) (oracle : Nat → Option String) (s : St) :
    Except (St × List LogLine × String) (St × List LogLine × Nat × String) :=
  match setup data oracle s with
  | .error (t, lg, m) => .error (t, lg, m)
  | .ok (s, lg, ctx) =>
    match runLoop data ctx oracle (List.range data.total_devices.toNat) s 0 with
    | .error (t, lg2, m) => .error (t, lg ++ lg2, m)
    | .ok (t, lg2, cnt) => .ok (t, lg ++ lg2, cnt, ctx.zone.name)

/-- What `run` leaves behind: final database, job log, issued persistence
calls, and the Python return value.  The source's `run` returns `None` on
every path (bare `return` on line 70, no `return` after the loop, none in
the handler), so `ret` is an `Option String` that the embedding shows is
always `none`. -/
structure RunResult where
  db : Db
  log : List LogLine
  calls : List Call
  ret : Option String
deriving DecidableEq, Repr

def pyBool (b : Bool) : String := if b then "True" else "False"

/-- Line 66. -/
def startLine (data : JobData) : LogLine :=
  .info ("Starting device generation job. Dry run: " ++ pyBool data.dry_run)

/-- Lines 66-74 (past the guard): the start line, then the dry-run warning
when `commit` is false. -/
def startLog (data : JobData) (commit : Bool) : List LogLine :=
  [startLine data] ++
    (if commit then []
     else [.warning "Dry run mode: No changes will be committed to the database."])

/-- Lines 180-183: the closing success line, which is the only place after
line 74 where `commit` is read. -/
def finalMsg (commit : Bool) (cnt : Nat) (data : JobData) (zn : String) : String :=
  if commit then
    "✅ Done! Created/Updated " ++ natStr cnt ++ " new devices and processed a total of " ++
      intStr data.total_devices ++ " devices in zone '" ++ zn ++ "'."
  else
    "✅ Dry run complete! Would have created/updated " ++ natStr cnt ++
      " new devices and processed a total of " ++ intStr data.total_devices ++
      " devices in zone '" ++ zn ++ "'. No changes were made."

/-- `GenerateDevicesAndRecords.run(data, commit)` (lines 58-187). -/
def run (data : JobData) (commit : Bool) (db0 : Db) (oracle : Nat → Option String) : RunResult :=
  if data.total_devices ≤ 0 then
    { db := db0, log := [startLine data, .failure "Total devices must be a positive integer."],
      calls := [], ret := none }
  else
    match runBody data oracle { db := db0, calls := [] } with
    | .ok (s, lg, cnt, zn) =>
      { db := s.db, log := startLog data commit ++ lg ++ [.success (finalMsg commit cnt data zn)],
        calls := s.calls, ret := none }
    | .error (s, lg, m) =>
      { db := s.db, log := startLog data commit ++ lg ++ [.failure ("An unexpected error occurred: " ++ m)],
        calls := s.calls, ret := none }

/-- The state reached by the body, whether it completed or raised. -/
def bodyOutSt : Except (St × List LogLine × String) (St × List LogLine × Nat × String) → St
  | .ok (s, _) => s
  | .error (s, _) => s

/-! ### Call traces of a fault-free run -/

def setupCalls (data : JobData) : List Call :=
  [.getOrCreate "Status" ["Active"], .getOrCreate "Manufacturer" ["AutoGen Inc."],
   .getOrCreate "DeviceType" ["AGen-Switch", "AutoGen Inc."], .getOrCreate "Platform" ["AutoOS"],
   .getOrCreate "Location" [data.location_name], .getOrCreate "Zone" [data.zone_name]]

def iterCalls (data : JobData) (zn : String) (i : Nat) : List Call :=
  [.updateOrCreate "Device" [devName data i], .updateOrCreate "Interface" [devName data i, "eth0"],
   .updateOrCreate "IPAddress" [ipStr i], .updateOrCreate "ARecord" [devName data i, zn]]

def callsOfIters (data : JobData) (zn : String) : List Nat → List Call
  | [] => []
  | i :: is => iterCalls data zn i ++ callsOfIters data zn is

/-! ### Fault-free reduction: the effectful run realizes the pure
characterization -/

theorem setup_noFail (data : JobData) (s : St) :
    ∃ lg t, setup data noFail s = .ok (t, lg, (pureSetup data s.db).2) ∧
      t.db = (pureSetup data s.db).1 ∧ t.calls = s.calls ++ setupCalls data := by
  refine ⟨_, _, rfl, rfl, ?_⟩
  simp [setup, ormCall, noFail, setupCalls, manufacturerGOC_name]

theorem runIter_noFail (data : JobData) (ctx : Ctx) (i : Nat) (s : St) :
    ∃ lg t created, runIter data ctx noFail i s = .ok (t, lg, created) ∧
      t.db = iterDb data ctx i s.db ∧ t.calls = s.calls ++ iterCalls data ctx.zone.name i := by
  refine ⟨_, _, _, rfl, rfl, ?_⟩
  simp [runIter, ormCall, noFail, iterCalls, deviceUOC_snd]

theorem foldIter_cons (data : JobData) (ctx : Ctx) (i : Nat) (is : List Nat) (db : Db) :
    foldIter data ctx (i :: is) db = foldIter data ctx is (iterDb data ctx i db) := rfl

theorem runLoop_noFail (data : JobData) (ctx : Ctx) :
    ∀ (is : List Nat) (s : St) (cnt : Nat),
      ∃ lg t k, runLoop data ctx noFail is s cnt = .ok (t, lg, k) ∧
        t.db = foldIter data ctx is s.db ∧
        t.calls = s.calls ++ callsOfIters data ctx.zone.name is := by
  intro is
  induction is with
  | nil => intro s cnt; exact ⟨[], s, cnt, rfl, rfl, by simp [callsOfIters]⟩
  | cons i is ih =>
    intro s cnt
    obtain ⟨lg₁, t₁, c₁, h₁, hdb₁, hc₁⟩ := runIter_noFail data ctx i s
    obtain ⟨lg₂, t₂, k₂, h₂, hdb₂, hc₂⟩ := ih t₁ (if c₁ then cnt + 1 else cnt)
    refine ⟨lg₁ ++ lg₂, t₂, k₂, ?_, ?_, ?_⟩
    · rw [runLoop, h₁]
      dsimp only
      rw [h₂]
    · rw [hdb₂, hdb₁, foldIter_cons]
    · rw [hc₂, hc₁, callsOfIters, List.append_assoc]

theorem pureSetup_zone_name (data : JobData) (db : Db) :
    (pureSetup data db).2.zone.name = data.zone_name := by
  have := zoneGOC_name data.zone_name
    (locationGOC data.location_name (platformGOC (deviceTypeGOC
      (manufacturerGOC (statusGOC db).1).2.1.name (manufacturerGOC (statusGOC db).1).1).1).1).1
  exact this

theorem runBody_noFail (data : JobData) (s : St) :
    ∃ lg t k, runBody data noFail s = .ok (t, lg, k, data.zone_name) ∧
      t.db = foldIter data (pureSetup data s.db).2 (List.range data.total_devices.toNat)
        (pureSetup data s.db).1 ∧
      t.calls = s.calls ++ setupCalls data ++
        callsOfIters data data.zone_name (List.range data.total_devices.toNat) := by
  obtain ⟨lg₁, t₁, h₁, hdb₁, hc₁⟩ := setup_noFail data s
  obtain ⟨lg₂, t₂, k₂, h₂, hdb₂, hc₂⟩ := runLoop_noFail data (pureSetup data s.db).2
    (List.range data.total_devices.toNat) t₁ 0
  refine ⟨lg₁ ++ lg₂, t₂, k₂, ?_, ?_, ?_⟩
  · rw [runBody, h₁]
    dsimp only
    rw [h₂, pureSetup_zone_name]
  · rw [hdb₂, hdb₁]
  · rw [hc₂, hc₁, pureSetup_zone_name, List.append_assoc]

theorem run_db_noFail (data : JobData) (commit : Bool) (db0 : Db) :
    (run data commit db0 noFail).db = pureRunDb data db0 := by
  unfold run pureRunDb
  by_cases h : data.total_devices ≤ 0
  · simp [h]
  · obtain ⟨lg, t, k, hb, hdb, _⟩ :=
      runBody_noFail data { db := db0, calls := ([] : List Call) }
    simp only [h, if_false, hb]
    exact hdb

theorem run_calls_noFail (data : JobData) (commit : Bool) (db0 : Db)
    (h : ¬ data.total_devices ≤ 0) :
    (run data commit db0 noFail).calls =
      setupCalls data ++ callsOfIters data data.zone_name (List.range data.total_devices.toNat) := by
  unfold run
  obtain ⟨lg, t, k, hb, _, hc⟩ := runBody_noFail data { db := db0, calls := ([] : List Call) }
  simp only [h, if_false, hb]
  simpa using hc


/-! ### Dry run versus commit: `commit` is read only by log lines -/

theorem run_commit_db (data : JobData) (db0 : Db) (oracle : Nat → Option String) :
    (run data true db0 oracle).db = (run data false db0 oracle).db ∧
    (run data true db0 oracle).calls = (run data false db0 oracle).calls ∧
    (run data true db0 oracle).ret = (run data false db0 oracle).ret := by
  unfold run
  by_cases hg : data.total_devices ≤ 0
  · simp [hg]
  · simp only [hg, if_false]
    cases runBody data oracle { db := db0, calls := [] } with
    | ok x => exact ⟨rfl, rfl, rfl⟩
    | error e => exact ⟨rfl, rfl, rfl⟩

/-! ### The rows each iteration writes, and the per-iteration invariant -/

def devTarget (data : JobData) (ctx : Ctx) (i : Nat) : DeviceRec :=
  { name := devName data i,
    device_type := (ctx.device_type.model, ctx.device_type.manufacturer),
    platform := ctx.platform.name, location := ctx.location.name,
    status := ctx.status_active.name }

def itfTarget (data : JobData) (ctx : Ctx) (i : Nat) : InterfaceRec :=
  { device := devName data i, name := "eth0", type := "1000base-t",
    status := ctx.status_active.name }

def ipTarget (data : JobData) (ctx : Ctx) (i : Nat) : IPAddressRec :=
  { address := ipStr i, assigned_object := (devName data i, "eth0"),
    status := ctx.status_active.name }

def arTarget (data : JobData) (ctx : Ctx) (i : Nat) : ARecordRec :=
  { name := devName data i, zone := ctx.zone.name, address := ipStr i }

/-- After iteration `i` has run, the first row matching each of its four
natural keys carries exactly the values iteration `i` writes. -/
def IterInv (data : JobData) (ctx : Ctx) (db : Db) (i : Nat) : Prop :=
  db.devices.find? (fun r => r.name == devName data i) = some (devTarget data ctx i) ∧
  db.interfaces.find? (fun r => r.device == devName data i && r.name == "eth0") =
    some (itfTarget data ctx i) ∧
  db.ipaddresses.find? (fun r => r.address == ipStr i) = some (ipTarget data ctx i) ∧
  db.arecords.find? (fun r => r.name == devName data i && r.zone == ctx.zone.name) =
    some (arTarget data ctx i)

/-! Projections of one iteration onto each of the four tables it writes. -/

theorem iterDb_devices (data : JobData) (ctx : Ctx) (i : Nat) (db : Db) :
    (iterDb data ctx i db).devices =
      (upsert (fun r => r.name == devName data i)
        (fun r => { r with
          device_type := (ctx.device_type.model, ctx.device_type.manufacturer),
          platform := ctx.platform.name, location := ctx.location.name,
          status := ctx.status_active.name })
        (devTarget data ctx i) db.devices).1 := rfl

theorem iterDb_interfaces (data : JobData) (ctx : Ctx) (i : Nat) (db : Db) :
    (iterDb data ctx i db).interfaces =
      (upsert (fun r => r.device == devName data i && r.name == "eth0")
        (fun r => { r with type := "1000base-t", status := ctx.status_active.name })
        (itfTarget data ctx i) db.interfaces).1 := by
  simp only [iterDb]
  rw [deviceUOC_snd]
  rfl

theorem iterDb_ipaddresses (data : JobData) (ctx : Ctx) (i : Nat) (db : Db) :
    (iterDb data ctx i db).ipaddresses =
      (upsert (fun r => r.address == ipStr i)
        (fun r => { r with
                    assigned_object := (devName data i, "eth0"),
                    status := ctx.status_active.name })
        (ipTarget data ctx i) db.ipaddresses).1 := by
  simp only [iterDb]
  rw [deviceUOC_snd, interfaceUOC_snd]
  rfl

theorem iterDb_arecords (data : JobData) (ctx : Ctx) (i : Nat) (db : Db) :
    (iterDb data ctx i db).arecords =
      (upsert (fun r => r.name == devName data i && r.zone == ctx.zone.name)
        (fun r => { r with address := ipStr i })
        (arTarget data ctx i) db.arecords).1 := by
  simp only [iterDb]
  rw [deviceUOC_snd, interfaceUOC_snd, ipUOC_snd]
  rfl


/-! Each `update_or_create` in the loop passes every non-key field, so an
update rewrites the matched row to exactly the row a create would build. -/

theorem devHf (data : JobData) (ctx : Ctx) (i : Nat) :
    ∀ x : DeviceRec, (x.name == devName data i) = true →
      ({ x with
         device_type := (ctx.device_type.model, ctx.device_type.manufacturer),
         platform := ctx.platform.name, location := ctx.location.name,
         status := ctx.status_active.name } : DeviceRec) = devTarget data ctx i := by
  intro x hx
  cases x
  simp_all [devTarget]

theorem itfHf (data : JobData) (ctx : Ctx) (i : Nat) :
    ∀ x : InterfaceRec, (x.device == devName data i && x.name == "eth0") = true →
      ({ x with type := "1000base-t", status := ctx.status_active.name } : InterfaceRec) =
        itfTarget data ctx i := by
  intro x hx
  cases x
  simp_all [itfTarget]

theorem ipHf (data : JobData) (ctx : Ctx) (i : Nat) :
    ∀ x : IPAddressRec, (x.address == ipStr i) = true →
      ({ x with
         assigned_object := (devName data i, "eth0"),
         status := ctx.status_active.name } : IPAddressRec) = ipTarget data ctx i := by
  intro x hx
  cases x
  simp_all [ipTarget]

theorem arHf (data : JobData) (ctx : Ctx) (i : Nat) :
    ∀ x : ARecordRec, (x.name == devName data i && x.zone == ctx.zone.name) = true →
      ({ x with address := ipStr i } : ARecordRec) = arTarget data ctx i := by
  intro x hx
  cases x
  simp_all [arTarget]

/-- Iteration `i` establishes its own invariant. -/
theorem iter_inv_self (data : JobData) (ctx : Ctx) (i : Nat) (db : Db) :
    IterInv data ctx (iterDb data ctx i db) i := by
  refine ⟨?_, ?_, ?_, ?_⟩
  · rw [iterDb_devices]
    exact upsert_find? (devHf data ctx i) (by simp [devTarget]) db.devices
  · rw [iterDb_interfaces]
    exact upsert_find? (itfHf data ctx i) (by simp [itfTarget]) db.interfaces
  · rw [iterDb_ipaddresses]
    exact upsert_find? (ipHf data ctx i) (by simp [ipTarget]) db.ipaddresses
  · rw [iterDb_arecords]
    exact upsert_find? (arHf data ctx i) (by simp [arTarget]) db.arecords

/-- Iteration `i` preserves the invariant of a different iteration `j`
(distinct device names always; distinct IP strings below the 65536 wrap). -/
theorem iter_inv_other (data : JobData) (ctx : Ctx) {i j : Nat} (hi : i < 65536) (hj : j < 65536)
    (hne : j ≠ i) (db : Db) (h : IterInv data ctx db j) :
    IterInv data ctx (iterDb data ctx i db) j := by
  obtain ⟨h1, h2, h3, h4⟩ := h
  have hdn : devName data i ≠ devName data j := devName_ne (Ne.symm hne)
  have hdnb : (devName data i == devName data j) = false := beq_eq_false_iff_ne.mpr hdn
  have hip : (ipStr i == ipStr j) = false := beq_eq_false_iff_ne.mpr (ipStr_ne hi hj (Ne.symm hne))
  refine ⟨?_, ?_, ?_, ?_⟩
  · rw [iterDb_devices, upsert_find?_other (devHf data ctx i) ?_ ?_ db.devices]
    · exact h1
    · intro x hx
      rw [eq_of_beq hx]
      exact hdnb
    · exact hdnb
  · rw [iterDb_interfaces, upsert_find?_other (itfHf data ctx i) ?_ ?_ db.interfaces]
    · exact h2
    · intro x hx
      rw [Bool.and_eq_true] at hx
      rw [eq_of_beq hx.1, hdnb, Bool.false_and]
    · show ((itfTarget data ctx i).device == devName data j && (itfTarget data ctx i).name == "eth0") = false
      rw [show (itfTarget data ctx i).device = devName data i from rfl, hdnb, Bool.false_and]
  · rw [iterDb_ipaddresses, upsert_find?_other (ipHf data ctx i) ?_ ?_ db.ipaddresses]
    · exact h3
    · intro x hx
      rw [eq_of_beq hx]
      exact hip
    · exact hip
  · rw [iterDb_arecords, upsert_find?_other (arHf data ctx i) ?_ ?_ db.arecords]
    · exact h4
    · intro x hx
      rw [Bool.and_eq_true] at hx
      rw [eq_of_beq hx.1, hdnb, Bool.false_and]
    · show ((arTarget data ctx i).name == devName data j && (arTarget data ctx i).zone == ctx.zone.name) = false
      rw [show (arTarget data ctx i).name = devName data i from rfl, hdnb, Bool.false_and]

theorem upsert_eq {p : α → Bool} {f : α → α} {mk : α} (hf : ∀ x, p x = true → f x = mk)
    (hp : p mk = true) {l : List α} (h : l.find? p = some mk) :
    upsert p f mk l = (l, mk, false) := by
  unfold upsert
  rw [h]
  dsimp only
  rw [updateFirst_of_find?_eq h (hf mk hp), hf mk hp]

theorem deviceUOC_fix (data : JobData) (ctx : Ctx) (i : Nat) (db : Db)
    (h : db.devices.find? (fun r => r.name == devName data i) = some (devTarget data ctx i)) :
    deviceUOC (devName data i) (ctx.device_type.model, ctx.device_type.manufacturer)
      ctx.platform.name ctx.location.name ctx.status_active.name db =
      (db, devTarget data ctx i, false) :=
  congrArg (fun u : List DeviceRec × DeviceRec × Bool =>
      (({ db with devices := u.1 } : Db), u.2.1, u.2.2))
    (upsert_eq (devHf data ctx i) (by simp [devTarget]) h)

theorem interfaceUOC_fix (data : JobData) (ctx : Ctx) (i : Nat) (db : Db)
    (h : db.interfaces.find? (fun r => r.device == devName data i && r.name == "eth0") =
      some (itfTarget data ctx i)) :
    interfaceUOC (devName data i) "eth0" "1000base-t" ctx.status_active.name db =
      (db, itfTarget data ctx i, false) :=
  congrArg (fun u : List InterfaceRec × InterfaceRec × Bool =>
      (({ db with interfaces := u.1 } : Db), u.2.1, u.2.2))
    (upsert_eq (itfHf data ctx i) (by simp [itfTarget]) h)

theorem ipUOC_fix (data : JobData) (ctx : Ctx) (i : Nat) (db : Db)
    (h : db.ipaddresses.find? (fun r => r.address == ipStr i) = some (ipTarget data ctx i)) :
    ipUOC (ipStr i) (devName data i, "eth0") ctx.status_active.name db =
      (db, ipTarget data ctx i, false) :=
  congrArg (fun u : List IPAddressRec × IPAddressRec × Bool =>
      (({ db with ipaddresses := u.1 } : Db), u.2.1, u.2.2))
    (upsert_eq (ipHf data ctx i) (by simp [ipTarget]) h)

theorem arUOC_fix (data : JobData) (ctx : Ctx) (i : Nat) (db : Db)
    (h : db.arecords.find? (fun r => r.name == devName data i && r.zone == ctx.zone.name) =
      some (arTarget data ctx i)) :
    arUOC (devName data i) ctx.zone.name (ipStr i) db = (db, arTarget data ctx i, false) :=
  congrArg (fun u : List ARecordRec × ARecordRec × Bool =>
      (({ db with arecords := u.1 } : Db), u.2.1, u.2.2))
    (upsert_eq (arHf data ctx i) (by simp [arTarget]) h)

/-- An iteration whose four rows are already in place writes nothing new:
the database is unchanged. -/
theorem iter_fix (data : JobData) (ctx : Ctx) (i : Nat) (db : Db)
    (h : IterInv data ctx db i) : iterDb data ctx i db = db := by
  obtain ⟨h1, h2, h3, h4⟩ := h
  simp only [iterDb]
  rw [deviceUOC_fix data ctx i db h1]
  simp only [devTarget]
  rw [interfaceUOC_fix data ctx i db h2]
  simp only [itfTarget]
  rw [ipUOC_fix data ctx i db h3]
  simp only [ipTarget]
  rw [arUOC_fix data ctx i db h4]

theorem foldIter_inv_preserve (data : JobData) (ctx : Ctx) :
    ∀ (is : List Nat) (db : Db) (j : Nat), j < 65536 → (∀ i ∈ is, i < 65536) → j ∉ is →
      IterInv data ctx db j → IterInv data ctx (foldIter data ctx is db) j := by
  intro is
  induction is with
  | nil => intro db j _ _ _ h; exact h
  | cons i is ih =>
    intro db j hj hb hnm h
    rw [foldIter_cons]
    refine ih _ j hj (fun k hk => hb k (List.mem_cons_of_mem _ hk))
      (fun hm => hnm (List.mem_cons_of_mem _ hm)) ?_
    exact iter_inv_other data ctx (hb i (List.mem_cons_self i is)) hj
      (fun he => hnm (he ▸ List.mem_cons_self i is)) db h

theorem foldIter_inv_all (data : JobData) (ctx : Ctx) :
    ∀ (is : List Nat) (db : Db), is.Nodup → (∀ i ∈ is, i < 65536) →
      ∀ j ∈ is, IterInv data ctx (foldIter data ctx is db) j := by
  intro is
  induction is with
  | nil => intro db _ _ j hj; simp at hj
  | cons i is ih =>
    intro db hnd hb j hj
    rw [foldIter_cons]
    rcases List.mem_cons.mp hj with rfl | hj2
    · refine foldIter_inv_preserve data ctx is (iterDb data ctx j db) j (hb j hj)
        (fun k hk => hb k (List.mem_cons_of_mem _ hk)) (List.nodup_cons.mp hnd).1 ?_
      exact iter_inv_self data ctx j db
    · exact ih (iterDb data ctx i db) (List.nodup_cons.mp hnd).2
        (fun k hk => hb k (List.mem_cons_of_mem _ hk)) j hj2

theorem foldIter_fix (data : JobData) (ctx : Ctx) :
    ∀ (is : List Nat) (db : Db), (∀ j ∈ is, IterInv data ctx db j) →
      foldIter data ctx is db = db := by
  intro is
  induction is with
  | nil => intro db _; rfl
  | cons i is ih =>
    intro db h
    rw [foldIter_cons, iter_fix data ctx i db (h i (List.mem_cons_self i is))]
    exact ih db (fun j hj => h j (List.mem_cons_of_mem _ hj))


/-! ### The pre-loop invariant and idempotency of the whole run -/

/-- After the pre-loop `get_or_create` calls have run once, each of the six
common objects is findable by its key, and (except for the manufacturer,
which the loop never uses) is the very object the context holds. -/
def SetupInv (data : JobData) (ctx : Ctx) (db : Db) : Prop :=
  db.statuses.find? (fun r => r.name == "Active") = some ctx.status_active ∧
  (∃ m, db.manufacturers.find? (fun r => r.name == "AutoGen Inc.") = some m) ∧
  db.deviceTypes.find? (fun r => r.model == "AGen-Switch" && r.manufacturer == "AutoGen Inc.") =
    some ctx.device_type ∧
  db.platforms.find? (fun r => r.name == "AutoOS") = some ctx.platform ∧
  db.locations.find? (fun r => r.name == data.location_name) = some ctx.location ∧
  db.zones.find? (fun r => r.name == data.zone_name) = some ctx.zone

theorem pureSetup_inv (data : JobData) (db : Db) :
    SetupInv data (pureSetup data db).2 (pureSetup data db).1 := by
  refine ⟨?_, ⟨(manufacturerGOC (statusGOC db).1).2.1, ?_⟩, ?_, ?_, ?_, ?_⟩
  · exact getOrCreate_find? (by simp) db.statuses
  · exact getOrCreate_find? (by simp) (statusGOC db).1.manufacturers
  · have e := manufacturerGOC_name (statusGOC db).1
    rw [← e]
    exact getOrCreate_find? (by simp) (manufacturerGOC (statusGOC db).1).1.deviceTypes
  · exact getOrCreate_find? (by simp) (deviceTypeGOC (manufacturerGOC (statusGOC db).1).2.1.name
      (manufacturerGOC (statusGOC db).1).1).1.platforms
  · exact getOrCreate_find? (by simp) (platformGOC (deviceTypeGOC
      (manufacturerGOC (statusGOC db).1).2.1.name (manufacturerGOC (statusGOC db).1).1).1).1.locations
  · exact getOrCreate_find? (by simp) (locationGOC data.location_name (platformGOC (deviceTypeGOC
      (manufacturerGOC (statusGOC db).1).2.1.name (manufacturerGOC (statusGOC db).1).1).1).1).1.zones

theorem foldIter_statuses (data : JobData) (ctx : Ctx) :
    ∀ (is : List Nat) (db : Db), (foldIter data ctx is db).statuses = db.statuses := by
  intro is
  induction is with
  | nil => intro db; rfl
  | cons i is ih => intro db; rw [foldIter_cons, ih, iterDb_statuses]

theorem foldIter_manufacturers (data : JobData) (ctx : Ctx) :
    ∀ (is : List Nat) (db : Db), (foldIter data ctx is db).manufacturers = db.manufacturers := by
  intro is
  induction is with
  | nil => intro db; rfl
  | cons i is ih => intro db; rw [foldIter_cons, ih, iterDb_manufacturers]

theorem foldIter_deviceTypes (data : JobData) (ctx : Ctx) :
    ∀ (is : List Nat) (db : Db), (foldIter data ctx is db).deviceTypes = db.deviceTypes := by
  intro is
  induction is with
  | nil => intro db; rfl
  | cons i is ih => intro db; rw [foldIter_cons, ih, iterDb_deviceTypes]

theorem foldIter_platforms (data : JobData) (ctx : Ctx) :
    ∀ (is : List Nat) (db : Db), (foldIter data ctx is db).platforms = db.platforms := by
  intro is
  induction is with
  | nil => intro db; rfl
  | cons i is ih => intro db; rw [foldIter_cons, ih, iterDb_platforms]

theorem foldIter_locations (data : JobData) (ctx : Ctx) :
    ∀ (is : List Nat) (db : Db), (foldIter data ctx is db).locations = db.locations := by
  intro is
  induction is with
  | nil => intro db; rfl
  | cons i is ih => intro db; rw [foldIter_cons, ih, iterDb_locations]

theorem foldIter_zones (data : JobData) (ctx : Ctx) :
    ∀ (is : List Nat) (db : Db), (foldIter data ctx is db).zones = db.zones := by
  intro is
  induction is with
  | nil => intro db; rfl
  | cons i is ih => intro db; rw [foldIter_cons, ih, iterDb_zones]

/-- A second pre-loop pass over a database satisfying the invariant finds
every common object, writes nothing, and rebuilds the same context. -/
theorem pureSetup_fix (data : JobData) (ctx : Ctx) (db : Db) (h : SetupInv data ctx db) :
    pureSetup data db = (db, ctx) := by
  obtain ⟨h1, ⟨m, h2⟩, h3, h4, h5, h6⟩ := h
  have hm : m.name = "AutoGen Inc." := by
    have := List.find?_some h2
    simp at this
    exact this
  have e1 : statusGOC db = (db, ctx.status_active, false) := by
    simp only [statusGOC]
    rw [getOrCreate_of_find? h1]
  have e2 : manufacturerGOC db = (db, m, false) := by
    simp only [manufacturerGOC]
    rw [getOrCreate_of_find? h2]
  have e3 : deviceTypeGOC "AutoGen Inc." db = (db, ctx.device_type, false) := by
    simp only [deviceTypeGOC]
    rw [getOrCreate_of_find? h3]
  have e4 : platformGOC db = (db, ctx.platform, false) := by
    simp only [platformGOC]
    rw [getOrCreate_of_find? h4]
  have e5 : locationGOC data.location_name db = (db, ctx.location, false) := by
    simp only [locationGOC]
    rw [getOrCreate_of_find? h5]
  have e6 : zoneGOC data.zone_name db = (db, ctx.zone, false) := by
    simp only [zoneGOC]
    rw [getOrCreate_of_find? h6]
  simp only [pureSetup, e1, e2, hm, e3, e4, e5, e6]

/-- Idempotency at the pure level: a second fault-free run from the state
the first run reached changes nothing, as long as every iteration index
stays below the 65536 wrap of the IP generator (the declared cap is 5000). -/
theorem pureRunDb_idem (data : JobData) (db0 : Db) (hlo : 1 ≤ data.total_devices)
    (hhi : data.total_devices ≤ 5000) :
    pureRunDb data (pureRunDb data db0) = pureRunDb data db0 := by
  have hg : ¬ data.total_devices ≤ 0 := by omega
  have hn : data.total_devices.toNat ≤ 5000 := by omega
  unfold pureRunDb
  simp only [hg, if_false]
  have hsi : SetupInv data (pureSetup data db0).2 (pureSetup data db0).1 :=
    pureSetup_inv data db0
  have hsf : SetupInv data (pureSetup data db0).2
      (foldIter data (pureSetup data db0).2 (List.range data.total_devices.toNat)
        (pureSetup data db0).1) := by
    obtain ⟨a, ⟨m, b⟩, c, d, e, f⟩ := hsi
    exact ⟨by rw [foldIter_statuses]; exact a,
           ⟨m, by rw [foldIter_manufacturers]; exact b⟩,
           by rw [foldIter_deviceTypes]; exact c,
           by rw [foldIter_platforms]; exact d,
           by rw [foldIter_locations]; exact e,
           by rw [foldIter_zones]; exact f⟩
  rw [pureSetup_fix data (pureSetup data db0).2 _ hsf]
  dsimp only
  apply foldIter_fix
  intro j hj
  exact foldIter_inv_all data (pureSetup data db0).2 (List.range data.total_devices.toNat)
    (pureSetup data db0).1 (List.nodup_range _)
    (fun k hk => by have := List.mem_range.mp hk; omega) j hj


/-! ### Runs from an empty database -/

/-- From a database with no devices, the loop creates exactly one Device
per index, in order. -/
theorem foldIter_devices_map (data : JobData) (ctx : Ctx) :
    ∀ (n : Nat) (db : Db), db.devices = [] →
      (foldIter data ctx (List.range n) db).devices =
        (List.range n).map (devTarget data ctx) := by
  intro n
  induction n with
  | zero => intro db h; simpa [foldIter] using h
  | succ n ih =>
    intro db h
    rw [List.range_succ]
    have hsplit : foldIter data ctx (List.range n ++ [n]) db =
        iterDb data ctx n (foldIter data ctx (List.range n) db) := by
      simp [foldIter, List.foldl_append]
    rw [hsplit, iterDb_devices]
    have hdev := ih db h
    have hnone : (foldIter data ctx (List.range n) db).devices.find?
        (fun r => r.name == devName data n) = none := by
      rw [hdev]
      apply List.find?_eq_none.mpr
      intro x hx
      simp only [List.mem_map] at hx
      obtain ⟨j, hj, rfl⟩ := hx
      have hjn : j < n := List.mem_range.mp hj
      have hne : devName data j ≠ devName data n := devName_ne (Nat.ne_of_lt hjn)
      simp [devTarget, hne]
    unfold upsert
    rw [hnone, hdev, List.map_append]
    simp

theorem callsOfIters_mem (data : JobData) (zn : String) :
    ∀ (is : List Nat) (i : Nat), i ∈ is → ∀ c ∈ iterCalls data zn i, c ∈ callsOfIters data zn is := by
  intro is
  induction is with
  | nil => intro i hi; simp at hi
  | cons j is ih =>
    intro i hi c hc
    rw [callsOfIters]
    rcases List.mem_cons.mp hi with rfl | hi2
    · exact List.mem_append_left _ hc
    · exact List.mem_append_right _ (ih i hi2 c hc)


/-! ### The package __init__ (src/jobs/__init__.py) -/

/-- Top-level names bound by executing src/jobs/generate_records.py: its
imports (lines 1-9), the module logger (line 12) and the job class
(line 14) — in particular, no `GenerateRecords`. -/
def generateRecordsModuleNames : List String :=
  ["logging", "Job", "StringVar", "IntegerVar", "BooleanVar", "Device", "DeviceType",
   "Manufacturer", "Interface", "Platform", "Location", "IPAddress", "Status", "Zone",
   "ARecord", "register_jobs", "logger", "GenerateDevicesAndRecords"]

/-- Executing src/jobs/__init__.py: `from .generate_records import
GenerateRecords` (line 2) succeeds only if that name is bound at top level
of `generate_records`, raising ImportError otherwise, and only on success
does control reach `register_jobs(GenerateRecords)` (line 4).  The result
is the list of registered job names, or the import failure. -/
def jobsPackageInit : Except String (List String) :=
  if "GenerateRecords" ∈ generateRecordsModuleNames then Except.ok ["GenerateRecords"]
  else Except.error "ImportError: cannot import name GenerateRecords from jobs.generate_records"

/-! ### The validation-aware variant handler (spec section 7) -/

/-- A Python exception as the variant's handler classifies it: the host's
validation-specific exception type, or anything else. -/
inductive PyExn
  | validationError (msg : String)
  | other (msg : String)
deriving DecidableEq, Repr

/-- Modelled from the spec: the variant of the job whose file is not under
src/ "additionally distinguishes a validation-specific exception type for
a friendlier message"; every other exception gets the generic handler
message. -/
def variantHandlerMsg : PyExn → String
  | .validationError m => "Validation failed: " ++ m
  | .other m => "An unexpected error occurred: " ++ m

/-! ### Concrete inputs for witnesses and counterexamples -/

/-- The declared defaults of the job, with `total_devices := 1`,
`dry_run := false`. -/
def dEx : JobData :=
  { location_name := "AutoLab", base_device_name := "autodev", total_devices := 1,
    zone_name := "example.com", dry_run := false }

def dEx2 : JobData := { dEx with total_devices := 2 }

def dBad : JobData := { dEx with total_devices := 0 }

/-- A fault oracle making the very first persistence call raise. -/
def oracle0 : Nat → Option String := fun k => if k == 0 then some "boom" else none

/-! ### The claims -/

/-- C1: for every input data, every initial database state and every fault
behavior of the host, running `run` with `commit = false` (dry run) issues
exactly the same sequence of persistence calls, produces the same final
database state and returns the same value as running it with
`commit = true`; only the emitted log lines differ, because the source
reads `commit` only at lines 73-74 and 180-183, which are log-only. -/
theorem claim_dry_run_same_writes (data : JobData) (db0 : Db) (oracle : Nat → Option String) :
    (run data true db0 oracle).db = (run data false db0 oracle).db ∧
    (run data true db0 oracle).calls = (run data false db0 oracle).calls ∧
    (run data true db0 oracle).ret = (run data false db0 oracle).ret :=
  run_commit_db data db0 oracle

/-- C2: importing the package src/jobs raises an ImportError, because
src/jobs/__init__.py imports the name `GenerateRecords` from
`generate_records`, which defines only `GenerateDevicesAndRecords`; hence
the `register_jobs` call in __init__.py is never reached (the `ok` branch,
the only one that registers, is not taken). -/
theorem claim_jobs_package_import_fails :
    jobsPackageInit =
      Except.error "ImportError: cannot import name GenerateRecords from jobs.generate_records" := by
  rfl

/-- C3: for 1 ≤ total_devices ≤ 5000 and any initial database state, a
second fault-free `run` with the same data (commit = true) leaves the
database exactly as the first run left it: every record kind is upserted
by its natural key (Device by name, Interface by device and name,
IPAddress by address, ARecord by name and zone), so the second run creates
nothing new and updates every row to the values it already has. -/
theorem claim_run_idempotent (data : JobData) (db0 : Db) (h1 : 1 ≤ data.total_devices)
    (h2 : data.total_devices ≤ 5000) :
    (run data true ((run data true db0 noFail).db) noFail).db =
      (run data true db0 noFail).db := by
  rw [run_db_noFail, run_db_noFail]
  exact pureRunDb_idem data db0 h1 h2

/-- C3 witness: the idempotency theorem at the declared defaults
(total_devices = 1) from the empty database. -/
theorem claim_run_idempotent_witness :
    1 ≤ dEx.total_devices ∧ dEx.total_devices ≤ 5000 ∧
    (run dEx true ((run dEx true emptyDb noFail).db) noFail).db =
      (run dEx true emptyDb noFail).db :=
  ⟨by decide, by decide, claim_run_idempotent dEx emptyDb (by decide) (by decide)⟩

/-- C4 counterexample: at the concrete default input, `run` returns `None`
both on normal completion (fault-free oracle) and when the broad handler
runs (first call raises) — it never returns a status string, refuting the
claim at this input. -/
theorem claim_status_string_counterexample :
    (run dEx true emptyDb noFail).ret = none ∧ (run dEx true emptyDb oracle0).ret = none := by
  exact ⟨rfl, rfl⟩

/-- C4 amended: `run` returns `None` on every path — the guard path
(bare `return`, line 70), normal completion (no `return` after the loop)
and the exception handler (no `return`); its human-readable status is
conveyed through log lines only. -/
theorem claim_run_returns_none (data : JobData) (commit : Bool) (db0 : Db)
    (oracle : Nat → Option String) : (run data commit db0 oracle).ret = none := by
  unfold run
  by_cases h : data.total_devices ≤ 0
  · simp [h]
  · simp only [h, if_false]
    cases hb : runBody data oracle { db := db0, calls := [] } with
    | ok x =>
      obtain ⟨s, lg, cnt, zn⟩ := x
      rfl
    | error e =>
      obtain ⟨s, lg, m⟩ := e
      rfl

/-- C5: in every fault-free run, the IPAddress persistence call of loop
iteration i carries the address string "10.0." ++ (i / 256 % 256) ++ "." ++
(i % 256) ++ "/24" — a pure function of the loop counter alone, the same
for every location_name, base_device_name, zone_name and dry_run. -/
theorem claim_ip_string_from_counter (data : JobData) (commit : Bool) (db0 : Db) (i : Nat)
    (h : i < data.total_devices.toNat) :
    Call.updateOrCreate "IPAddress" [ipStr i] ∈ (run data commit db0 noFail).calls ∧
    ipStr i = "10.0." ++ natStr (i / 256 % 256) ++ "." ++ natStr (i % 256) ++ "/24" := by
  constructor
  · have hg : ¬ data.total_devices ≤ 0 := by omega
    rw [run_calls_noFail data commit db0 hg]
    refine List.mem_append_right _ ?_
    refine callsOfIters_mem data data.zone_name _ i (List.mem_range.mpr h) _ ?_
    simp [iterCalls]
  · rfl

/-- C5 witness: the IPAddress call of iteration 0 at the default inputs. -/
theorem claim_ip_string_from_counter_witness :
    0 < dEx.total_devices.toNat ∧
    (Call.updateOrCreate "IPAddress" [ipStr 0] ∈ (run dEx true emptyDb noFail).calls ∧
     ipStr 0 = "10.0." ++ natStr (0 / 256 % 256) ++ "." ++ natStr (0 % 256) ++ "/24") :=
  ⟨by decide, claim_ip_string_from_counter dEx true emptyDb 0 (by decide)⟩

/-- C6: whatever call the oracle makes raise, `run`'s final database state
and call trace are exactly those the body had reached when it stopped —
the handler (lines 185-187) performs no further writes, deletions, retries
or compensation, so all records written before the failing call remain. -/
theorem claim_handler_no_further_writes (data : JobData) (commit : Bool) (db0 : Db)
    (oracle : Nat → Option String) (h : 0 < data.total_devices) :
    (run data commit db0 oracle).db =
      (bodyOutSt (runBody data oracle { db := db0, calls := [] })).db ∧
    (run data commit db0 oracle).calls =
      (bodyOutSt (runBody data oracle { db := db0, calls := [] })).calls := by
  have hg : ¬ data.total_devices ≤ 0 := by omega
  unfold run
  simp only [hg, if_false]
  cases hb : runBody data oracle { db := db0, calls := [] } with
  | ok x =>
    obtain ⟨s, lg, cnt, zn⟩ := x
    exact ⟨rfl, rfl⟩
  | error e =>
    obtain ⟨s, lg, m⟩ := e
    exact ⟨rfl, rfl⟩

/-- C6 witness: the default input with the first persistence call raising. -/
theorem claim_handler_no_further_writes_witness :
    0 < dEx.total_devices ∧
    ((run dEx true emptyDb oracle0).db =
      (bodyOutSt (runBody dEx oracle0 { db := emptyDb, calls := [] })).db ∧
     (run dEx true emptyDb oracle0).calls =
      (bodyOutSt (runBody dEx oracle0 { db := emptyDb, calls := [] })).calls) :=
  ⟨by decide, claim_handler_no_further_writes dEx true emptyDb oracle0 (by decide)⟩

/-- C7: every exception the body raises is caught by the broad handler,
which appends the "An unexpected error occurred" failure line and returns
normally — `run` is total, so nothing propagates to the caller; and the
variant job (modelled from the spec, its file not under src/)
distinguishes the validation-specific exception type with a distinct,
friendlier message. -/
theorem claim_broad_handler_catches :
    (∀ (data : JobData) (commit : Bool) (db0 : Db) (oracle : Nat → Option String),
      ¬ data.total_devices ≤ 0 →
      (run data commit db0 oracle).log = startLog data commit ++
        (match runBody data oracle { db := db0, calls := [] } with
         | .ok (_, lg, cnt, zn) => lg ++ [.success (finalMsg commit cnt data zn)]
         | .error (_, lg, m) => lg ++ [.failure ("An unexpected error occurred: " ++ m)])) ∧
    (∀ m₁ m₂ : String,
      variantHandlerMsg (.validationError m₁) ≠ variantHandlerMsg (.other m₂)) := by
  constructor
  · intro data commit db0 oracle hg
    unfold run
    simp only [hg, if_false]
    cases hb : runBody data oracle { db := db0, calls := [] } with
    | ok x =>
      obtain ⟨s, lg, cnt, zn⟩ := x
      simp [List.append_assoc]
    | error e =>
      obtain ⟨s, lg, m⟩ := e
      simp [List.append_assoc]
  · intro m₁ m₂ h
    simp only [variantHandlerMsg] at h
    have hd := congrArg String.data h
    rw [string_data_append, string_data_append] at hd
    have h1 : ("Validation failed: " : String).data =
        'V' :: ("alidation failed: " : String).data := rfl
    have h2 : ("An unexpected error occurred: " : String).data =
        'A' :: ("n unexpected error occurred: " : String).data := rfl
    rw [h1, h2] at hd
    simp only [List.cons_append, List.cons.injEq] at hd
    exact absurd hd.1 (by decide)

/-- C8 counterexample: the job's declared inputs contain neither a
DeviceType nor a DeviceRole field (its DeviceType is the hardcoded
"AGen-Switch" and no role is ever written), and a run with
total_devices = 2 creates two Device records, not exactly one — refuting
the claim at this concrete input. -/
theorem claim_device_inputs_counterexample :
    "device_type" ∉ jobInputFields.map Prod.fst ∧
    "device_role" ∉ jobInputFields.map Prod.fst ∧
    (run dEx2 true emptyDb noFail).db.devices.length = 2 := by
  exact ⟨by decide, by decide, by decide⟩

/-- C8 amended: the job takes no DeviceType or DeviceRole input; it
ensures via get_or_create that the DeviceType "AGen-Switch" by
"AutoGen Inc." exists, and a fault-free run from an empty database creates
exactly total_devices Device records (one per loop index), every one
carrying that DeviceType as its foreign key (no role field is written). -/
theorem claim_one_device_per_index (data : JobData) :
    (run data true emptyDb noFail).db.devices.length = data.total_devices.toNat ∧
    ∀ d ∈ (run data true emptyDb noFail).db.devices,
      d.device_type = ("AGen-Switch", "AutoGen Inc.") := by
  rw [run_db_noFail]
  unfold pureRunDb
  by_cases hg : data.total_devices ≤ 0
  · simp only [hg, if_true]
    refine ⟨?_, ?_⟩
    · show (0 : Nat) = data.total_devices.toNat
      omega
    · intro d hd
      simp [emptyDb] at hd
  · simp only [hg, if_false]
    have hdev : (foldIter data (pureSetup data emptyDb).2 (List.range data.total_devices.toNat)
        (pureSetup data emptyDb).1).devices =
        (List.range data.total_devices.toNat).map (devTarget data (pureSetup data emptyDb).2) :=
      foldIter_devices_map data (pureSetup data emptyDb).2 data.total_devices.toNat
        (pureSetup data emptyDb).1 rfl
    rw [hdev]
    constructor
    · simp
    · intro d hd
      simp only [List.mem_map] at hd
      obtain ⟨j, hj, rfl⟩ := hd
      rfl

/-- C9: distinct loop indices below 65536 always get distinct IP address
strings, and since the declared input constraint caps total_devices at
5000, all devices processed in a single valid run get distinct IPs. -/
theorem claim_ip_strings_distinct :
    (∀ i j : Nat, i < j → j < 65536 → ipStr i ≠ ipStr j) ∧
    (∀ d : JobData, validInput d → ∀ i j : Nat, i < j → j < d.total_devices.toNat →
      ipStr i ≠ ipStr j) := by
  constructor
  · intro i j hij hj
    exact ipStr_ne (by omega) hj (by omega)
  · intro d hd i j hij hj
    obtain ⟨_, h2⟩ := hd
    have ht : d.total_devices.toNat ≤ 5000 := by omega
    exact ipStr_ne (by omega) (by omega) (by omega)

/-- C10: when total_devices ≤ 0, `run` logs the start line and the
failure line and returns with the database untouched and no persistence
call issued; and the declared constraint min_value = 1 makes that branch
unreachable for any valid input. -/
theorem claim_nonpositive_guard :
    (∀ (data : JobData) (commit : Bool) (db0 : Db) (oracle : Nat → Option String),
      data.total_devices ≤ 0 →
      run data commit db0 oracle =
        { db := db0,
          log := [startLine data, LogLine.failure "Total devices must be a positive integer."],
          calls := [], ret := none }) ∧
    (∀ d : JobData, validInput d → ¬ d.total_devices ≤ 0) := by
  constructor
  · intro data commit db0 oracle h
    simp [run, h]
  · intro d hd
    obtain ⟨h1, _⟩ := hd
    omega

end GenRecords
